import Mathlib

/-!
Verification of the riscv-emu repository against its natural-language
specification.

The development shallowly embeds the two CPU crates of the repository:

* the root crate (`src/src/{inst,reg,rom,cpu}.rs`), embedded under the
  `Root` namespace together with the shared decoder (`Instruction.*`),
  register file (`Registers.*`) and memory window (`Rom.*`);
* the `emu` crate (`src/emu/src/cpu.rs`), embedded under the `Emu`
  namespace.  The emu crate declares `pub mod inst; pub mod reg; pub mod
  rom;` but those files are not part of the source snapshot, so the
  decoder definitions it uses (`kindSpec`, `immI_spec`, ...) are modelled
  from the specification and are marked as such in their doc comments.

Machine integers are modelled as `Nat` (unsigned 32-bit values, reduced
`% 2^32` exactly where the Rust code wraps) and `Int` (signed values).
Rust panics (out-of-bounds slice indexing, `todo!()`) are modelled as
`Except.error` values carrying a `Fault`.
-/

/-- The instruction kinds of `src/src/inst.rs` (`enum InstructionKind`). -/
inductive InstructionKind where
  | Lui | Auipc
  | Jal
  | Beq | Bne | Blt | Bge | Bltu | Bgeu
  | Jalr
  | Lb | Lh | Lw | Lbu | Lhu
  | Addi | Slti | Sltiu | Xori | Ori | Andi
  | Sb | Sh | Sw
  | Slli | Srli | Srai
  | Add | Sub | Sll | Slt | Sltu | Xor | Srl | Sra | Or | And
  | Fence | ECall | EBreak
  | Unknown
  deriving DecidableEq

/-- Field extraction `opcode = bits[6:0]` (bitfield in `src/src/inst.rs`). -/
def Instruction.opcode (w : Nat) : Nat := w &&& 0x7F

/-- Field extraction `rd = bits[11:7]`. -/
def Instruction.rd (w : Nat) : Nat := (w >>> 7) &&& 0x1F

/-- Field extraction `funct3 = bits[14:12]`. -/
def Instruction.funct3 (w : Nat) : Nat := (w >>> 12) &&& 0x7

/-- Field extraction `rs1 = bits[19:15]`. -/
def Instruction.rs1 (w : Nat) : Nat := (w >>> 15) &&& 0x1F

/-- Field extraction `rs2 = bits[24:20]`. -/
def Instruction.rs2 (w : Nat) : Nat := (w >>> 20) &&& 0x1F

/-- Field extraction `funct7 = bits[31:25]`. -/
def Instruction.funct7 (w : Nat) : Nat := (w >>> 25) &&& 0x7F

/-- Reinterpret the low 32 bits of an unsigned value as a two's-complement
signed 32-bit value (the Rust cast `as i32` applied to a `u32`). -/
def i32ofBits (m : Nat) : Int := if m < 2 ^ 31 then (m : Int) else (m : Int) - 2 ^ 32

/-- Reinterpret a signed value as its 32-bit pattern (the Rust cast
`as u32` / `wrapping` arithmetic result on 32 bits). -/
def wrap32i (z : Int) : Nat := (z % (2 ^ 32 : Int)).toNat

/-- `fn sign_extend(value: u32, bits: u32) -> i32` from `src/src/inst.rs`:
`((value as i32) << shift) >> shift` with `shift = 32 - bits`; the left
shift discards overflowing bits and the right shift is arithmetic. -/
def sign_extend (value : Nat) (bits : Nat) : Int :=
  let shift := 32 - bits
  Int.fdiv (i32ofBits ((value <<< shift) % 2 ^ 32)) (2 ^ shift)

/-- `Instruction::imm_i`: `sign_extend(self.0 >> 20, 12)`. -/
def Instruction.imm_i (w : Nat) : Int := sign_extend (w >>> 20) 12

/-- `Instruction::imm_s` from `src/src/inst.rs`, verbatim: the first line
extracts bit 31 and places it at bit 12, the second extracts bits 30:25
and places them at bits 10:5 (the doc comment of the Rust function
promises `imm[11:5|4:0]`). -/
def Instruction.imm_s (w : Nat) : Int :=
  let imm11_5 := ((w &&& 0x80000000) >>> 31) <<< 12
  let imm4_0 := ((w &&& 0x7E000000) >>> 25) <<< 5
  sign_extend (imm11_5 ||| imm4_0) 12

/-- `Instruction::imm_b` from `src/src/inst.rs`, verbatim: assembles
`imm[12|11|10:5|4:1]` and then calls `sign_extend(imm, 12)` (width 12,
not 13). -/
def Instruction.imm_b (w : Nat) : Int :=
  let imm12 := ((w &&& 0x80000000) >>> 31) <<< 12
  let imm10_5 := ((w &&& 0x7E000000) >>> 25) <<< 5
  let imm4_1 := ((w &&& 0x00000F00) >>> 8) <<< 1
  let imm11 := ((w &&& 0x00000080) >>> 7) <<< 11
  sign_extend (imm12 ||| imm11 ||| imm10_5 ||| imm4_1) 12

/-- `Instruction::imm_u`: `sign_extend(self.0 >> 12, 20)`. -/
def Instruction.imm_u (w : Nat) : Int := sign_extend (w >>> 12) 20

/-- `Instruction::imm_j` from `src/src/inst.rs`, verbatim: assembles
`imm[20|19:12|11|10:1]` and calls `sign_extend(imm, 20)`. -/
def Instruction.imm_j (w : Nat) : Int :=
  let imm20 := ((w &&& 0x80000000) >>> 31) <<< 20
  let imm10_1 := ((w &&& 0x7FE00000) >>> 21) <<< 1
  let imm11 := ((w &&& 0x00100000) >>> 20) <<< 11
  let imm19_12 := ((w &&& 0x000FF000) >>> 12) <<< 12
  sign_extend (imm20 ||| imm11 ||| imm10_1 ||| imm19_12) 20

/-- The match of `Instruction::kind` in `src/src/inst.rs`, arm by arm and
in source order.  The scrutinee of the Rust match is the tuple
`(self.opcode(), self.funct3(), self.funct7())`; the last ten non-wildcard
arms are transcribed exactly as written in the source, where the R-type
opcode `0b0110011` appears in the third (funct7) position of the pattern. -/
def kindOfFields (opcode funct3 funct7 : Nat) : InstructionKind :=
  if opcode = 0b0110111 then .Lui else
  if opcode = 0b0010111 then .Auipc else
  if opcode = 0b1101111 then .Jal else
  if opcode = 0b1100011 ∧ funct3 = 0b000 then .Beq else
  if opcode = 0b1100011 ∧ funct3 = 0b001 then .Bne else
  if opcode = 0b1100011 ∧ funct3 = 0b100 then .Blt else
  if opcode = 0b1100011 ∧ funct3 = 0b101 then .Bge else
  if opcode = 0b1100011 ∧ funct3 = 0b110 then .Bltu else
  if opcode = 0b1100011 ∧ funct3 = 0b111 then .Bgeu else
  if opcode = 0b1100111 ∧ funct3 = 0b000 then .Jalr else
  if opcode = 0b0000011 ∧ funct3 = 0b000 then .Lb else
  if opcode = 0b0000011 ∧ funct3 = 0b001 then .Lh else
  if opcode = 0b0000011 ∧ funct3 = 0b010 then .Lw else
  if opcode = 0b0000011 ∧ funct3 = 0b100 then .Lbu else
  if opcode = 0b0000011 ∧ funct3 = 0b101 then .Lhu else
  if opcode = 0b0010011 ∧ funct3 = 0b000 then .Addi else
  if opcode = 0b0010011 ∧ funct3 = 0b010 then .Slti else
  if opcode = 0b0010011 ∧ funct3 = 0b011 then .Sltiu else
  if opcode = 0b0010011 ∧ funct3 = 0b100 then .Xori else
  if opcode = 0b0010011 ∧ funct3 = 0b110 then .Ori else
  if opcode = 0b0010011 ∧ funct3 = 0b111 then .Andi else
  if opcode = 0b0100011 ∧ funct3 = 0b000 then .Sb else
  if opcode = 0b0100011 ∧ funct3 = 0b001 then .Sh else
  if opcode = 0b0100011 ∧ funct3 = 0b010 then .Sw else
  if opcode = 0b0010011 ∧ funct3 = 0b001 ∧ funct7 = 0b0000000 then .Slli else
  if opcode = 0b0010011 ∧ funct3 = 0b101 ∧ funct7 = 0b0000000 then .Srli else
  if opcode = 0b0010011 ∧ funct3 = 0b101 ∧ funct7 = 0b0100000 then .Srai else
  if opcode = 0b0000000 ∧ funct3 = 0b000 ∧ funct7 = 0b0110011 then .Add else
  if opcode = 0b0100000 ∧ funct3 = 0b000 ∧ funct7 = 0b0110011 then .Sub else
  if opcode = 0b0000000 ∧ funct3 = 0b001 ∧ funct7 = 0b0110011 then .Sll else
  if opcode = 0b0000000 ∧ funct3 = 0b010 ∧ funct7 = 0b0110011 then .Slt else
  if opcode = 0b0000000 ∧ funct3 = 0b011 ∧ funct7 = 0b0110011 then .Sltu else
  if opcode = 0b0000000 ∧ funct3 = 0b100 ∧ funct7 = 0b0110011 then .Xor else
  if opcode = 0b0000000 ∧ funct3 = 0b101 ∧ funct7 = 0b0110011 then .Srl else
  if opcode = 0b0100000 ∧ funct3 = 0b101 ∧ funct7 = 0b0110011 then .Sra else
  if opcode = 0b0000000 ∧ funct3 = 0b110 ∧ funct7 = 0b0110011 then .Or else
  if opcode = 0b0000000 ∧ funct3 = 0b111 ∧ funct7 = 0b0110011 then .And else
  .Unknown

/-- `Instruction::kind`: dispatch on `(opcode, funct3, funct7)`. -/
def Instruction.kind (w : Nat) : InstructionKind :=
  kindOfFields (Instruction.opcode w) (Instruction.funct3 w) (Instruction.funct7 w)

/-- One disjunct per non-wildcard arm of the `Instruction::kind` match,
in source order: a tuple satisfies `tableMatches` exactly when some listed
arm of the classifier's table matches it. -/
abbrev tableMatches (opcode funct3 funct7 : Nat) : Prop :=
  (opcode = 0b0110111) ∨
  (opcode = 0b0010111) ∨
  (opcode = 0b1101111) ∨
  (opcode = 0b1100011 ∧ funct3 = 0b000) ∨
  (opcode = 0b1100011 ∧ funct3 = 0b001) ∨
  (opcode = 0b1100011 ∧ funct3 = 0b100) ∨
  (opcode = 0b1100011 ∧ funct3 = 0b101) ∨
  (opcode = 0b1100011 ∧ funct3 = 0b110) ∨
  (opcode = 0b1100011 ∧ funct3 = 0b111) ∨
  (opcode = 0b1100111 ∧ funct3 = 0b000) ∨
  (opcode = 0b0000011 ∧ funct3 = 0b000) ∨
  (opcode = 0b0000011 ∧ funct3 = 0b001) ∨
  (opcode = 0b0000011 ∧ funct3 = 0b010) ∨
  (opcode = 0b0000011 ∧ funct3 = 0b100) ∨
  (opcode = 0b0000011 ∧ funct3 = 0b101) ∨
  (opcode = 0b0010011 ∧ funct3 = 0b000) ∨
  (opcode = 0b0010011 ∧ funct3 = 0b010) ∨
  (opcode = 0b0010011 ∧ funct3 = 0b011) ∨
  (opcode = 0b0010011 ∧ funct3 = 0b100) ∨
  (opcode = 0b0010011 ∧ funct3 = 0b110) ∨
  (opcode = 0b0010011 ∧ funct3 = 0b111) ∨
  (opcode = 0b0100011 ∧ funct3 = 0b000) ∨
  (opcode = 0b0100011 ∧ funct3 = 0b001) ∨
  (opcode = 0b0100011 ∧ funct3 = 0b010) ∨
  (opcode = 0b0010011 ∧ funct3 = 0b001 ∧ funct7 = 0b0000000) ∨
  (opcode = 0b0010011 ∧ funct3 = 0b101 ∧ funct7 = 0b0000000) ∨
  (opcode = 0b0010011 ∧ funct3 = 0b101 ∧ funct7 = 0b0100000) ∨
  (opcode = 0b0000000 ∧ funct3 = 0b000 ∧ funct7 = 0b0110011) ∨
  (opcode = 0b0100000 ∧ funct3 = 0b000 ∧ funct7 = 0b0110011) ∨
  (opcode = 0b0000000 ∧ funct3 = 0b001 ∧ funct7 = 0b0110011) ∨
  (opcode = 0b0000000 ∧ funct3 = 0b010 ∧ funct7 = 0b0110011) ∨
  (opcode = 0b0000000 ∧ funct3 = 0b011 ∧ funct7 = 0b0110011) ∨
  (opcode = 0b0000000 ∧ funct3 = 0b100 ∧ funct7 = 0b0110011) ∨
  (opcode = 0b0000000 ∧ funct3 = 0b101 ∧ funct7 = 0b0110011) ∨
  (opcode = 0b0100000 ∧ funct3 = 0b101 ∧ funct7 = 0b0110011) ∨
  (opcode = 0b0000000 ∧ funct3 = 0b110 ∧ funct7 = 0b0110011) ∨
  (opcode = 0b0000000 ∧ funct3 = 0b111 ∧ funct7 = 0b0110011)

/-- Modelled from the spec: the classifier of the `emu` crate
(`emu/src/inst.rs` is declared in `emu/src/lib.rs` but absent from the
snapshot).  §4.2: LUI/AUIPC/JAL by opcode alone; the six branches by
(branch-opcode, funct3); JALR by (opcode, funct3=000); the five loads by
(load-opcode, funct3); the six I-immediate ALU ops by (opcode, funct3)
with SLLI/SRLI/SRAI disambiguated by funct7 (bit 30 selects the shift);
the three stores; the ten R-type ALU ops by (funct7, funct3) under the
R-type opcode; FENCE, ECALL, EBREAK as fixed single-encoding words. -/
def kindSpec (w : Nat) : InstructionKind :=
  let op := Instruction.opcode w
  let f3 := Instruction.funct3 w
  let f7 := Instruction.funct7 w
  if op = 0b0110111 then .Lui else
  if op = 0b0010111 then .Auipc else
  if op = 0b1101111 then .Jal else
  if op = 0b1100011 then
    (if f3 = 0b000 then .Beq else if f3 = 0b001 then .Bne else
     if f3 = 0b100 then .Blt else if f3 = 0b101 then .Bge else
     if f3 = 0b110 then .Bltu else if f3 = 0b111 then .Bgeu else .Unknown) else
  if op = 0b1100111 then (if f3 = 0b000 then .Jalr else .Unknown) else
  if op = 0b0000011 then
    (if f3 = 0b000 then .Lb else if f3 = 0b001 then .Lh else
     if f3 = 0b010 then .Lw else if f3 = 0b100 then .Lbu else
     if f3 = 0b101 then .Lhu else .Unknown) else
  if op = 0b0010011 then
    (if f3 = 0b000 then .Addi else if f3 = 0b010 then .Slti else
     if f3 = 0b011 then .Sltiu else if f3 = 0b100 then .Xori else
     if f3 = 0b110 then .Ori else if f3 = 0b111 then .Andi else
     if f3 = 0b001 ∧ f7 = 0b0000000 then .Slli else
     if f3 = 0b101 ∧ f7 = 0b0000000 then .Srli else
     if f3 = 0b101 ∧ f7 = 0b0100000 then .Srai else .Unknown) else
  if op = 0b0100011 then
    (if f3 = 0b000 then .Sb else if f3 = 0b001 then .Sh else
     if f3 = 0b010 then .Sw else .Unknown) else
  if op = 0b0110011 then
    (if f7 = 0b0000000 then
       (if f3 = 0b000 then .Add else if f3 = 0b001 then .Sll else
        if f3 = 0b010 then .Slt else if f3 = 0b011 then .Sltu else
        if f3 = 0b100 then .Xor else if f3 = 0b101 then .Srl else
        if f3 = 0b110 then .Or else .And) else
     if f7 = 0b0100000 then
       (if f3 = 0b000 then .Sub else if f3 = 0b101 then .Sra else .Unknown)
     else .Unknown) else
  if w = 0x0000000F then .Fence else
  if w = 0x00000073 then .ECall else
  if w = 0x00100073 then .EBreak else
  .Unknown

/-- Modelled from the spec: I-type immediate of the emu decoder,
`imm = bits[31:20]`, width 12 (§4.1). -/
def immI_spec (w : Nat) : Int := sign_extend (w >>> 20) 12

/-- Modelled from the spec: S-type immediate of the emu decoder,
`imm = bits[31:25]<<5 | bits[11:7]`, width 12 (§4.1). -/
def immS_spec (w : Nat) : Int :=
  sign_extend ((((w >>> 25) &&& 0x7F) <<< 5) ||| ((w >>> 7) &&& 0x1F)) 12

/-- Modelled from the spec: B-type immediate of the emu decoder,
`imm = bits[31]<<12 | bits[7]<<11 | bits[30:25]<<5 | bits[11:8]<<1`,
width 13 (§4.1). -/
def immB_spec (w : Nat) : Int :=
  sign_extend ((((w >>> 31) &&& 0x1) <<< 12) ||| (((w >>> 7) &&& 0x1) <<< 11) |||
               (((w >>> 25) &&& 0x3F) <<< 5) ||| (((w >>> 8) &&& 0xF) <<< 1)) 13

/-- Modelled from the spec: U-type immediate of the emu decoder,
`imm = bits[31:12] << 12`, left-justified with the low 12 bits zero
(§4.1), reinterpreted as a signed machine word. -/
def immU_spec (w : Nat) : Int := i32ofBits (w &&& 0xFFFFF000)

/-- Modelled from the spec: J-type immediate of the emu decoder,
`imm = bits[31]<<20 | bits[19:12]<<12 | bits[20]<<11 | bits[30:21]<<1`,
width 21 (§4.1). -/
def immJ_spec (w : Nat) : Int :=
  sign_extend ((((w >>> 31) &&& 0x1) <<< 20) ||| (((w >>> 12) &&& 0xFF) <<< 12) |||
               (((w >>> 20) &&& 0x1) <<< 11) ||| (((w >>> 21) &&& 0x3FF) <<< 1)) 21

/-- The register file of `src/src/reg.rs`: `Registers([xlen; 32])`,
indexed positionally (indices always come from 5-bit fields). -/
abbrev Registers := List Nat

/-- Positional read `self.regs[i]` (always in range in the source, since
`i` is a 5-bit field; out-of-range reads default to 0 in the model). -/
def Registers.get (regs : Registers) (i : Nat) : Nat := regs.getD i 0

/-- `Registers::set_zero`: write the `zero` register (index 0). -/
def Registers.set_zero (regs : Registers) (v : Nat) : Registers := regs.set 0 v

/-- `Registers::set_sp`: write the stack pointer (index 2). -/
def Registers.set_sp (regs : Registers) (v : Nat) : Registers := regs.set 2 v

/-- `Registers::new(rom_size)`: all zero, then `set_zero(0)` and
`set_sp(rom_size)`. -/
def Registers.new (rom_size : Nat) : Registers :=
  Registers.set_sp (Registers.set_zero (List.replicate 32 0) 0) rom_size

/-- Host-level fatal faults: out-of-bounds slice indexing in `Rom::read`
/ `Rom::write` and the `todo!()` stubs of unimplemented instructions.
In the Rust source these are panics; the model surfaces them as
`Except.error` values. -/
inductive Fault where
  | oobRead (addr : Nat)
  | oobWrite (addr : Nat)
  | notImplemented (k : InstructionKind)
  deriving DecidableEq

/-- The memory window of `src/src/rom.rs`: a byte buffer for the address
range `[start_addr, end_addr)`, addressed relative to `start_addr`. -/
structure Rom where
  bytes : List Nat
  start_addr : Nat
  end_addr : Nat
  deriving DecidableEq

/-- `Rom::read`: `self.bytes[addr - self.start_addr]`; indexing outside
the buffer is a host fault. -/
def Rom.read (rom : Rom) (addr : Nat) : Except Fault Nat :=
  if h : rom.start_addr ≤ addr ∧ addr - rom.start_addr < rom.bytes.length then
    .ok (rom.bytes.get ⟨addr - rom.start_addr, h.2⟩)
  else
    .error (.oobRead addr)

/-- `Rom::write`: `self.bytes[addr - self.start_addr] = value`. -/
def Rom.write (rom : Rom) (addr : Nat) (value : Nat) : Except Fault Rom :=
  if rom.start_addr ≤ addr ∧ addr - rom.start_addr < rom.bytes.length then
    .ok { rom with bytes := rom.bytes.set (addr - rom.start_addr) value }
  else
    .error (.oobWrite addr)

/-- `Rom::size`: `end_addr - start_addr`. -/
def Rom.size (rom : Rom) : Nat := rom.end_addr - rom.start_addr

/-- The four byte reads of `Cpu::fetch`, assembled little-endian
(`u32::from_le_bytes`); the first failing read aborts the fetch. -/
def Rom.fetch4 (rom : Rom) (a : Nat) : Except Fault Nat :=
  match rom.read a, rom.read (a + 1), rom.read (a + 2), rom.read (a + 3) with
  | .ok b0, .ok b1, .ok b2, .ok b3 =>
      .ok (b0 + b1 * 2 ^ 8 + b2 * 2 ^ 16 + b3 * 2 ^ 24)
  | .error e, _, _, _ => .error e
  | _, .error e, _, _ => .error e
  | _, _, .error e, _ => .error e
  | _, _, _, .error e => .error e

/-- CPU state of `src/src/cpu.rs` (root crate): register file and program
counter; the ROM is borrowed and passed separately. -/
structure Root.Cpu where
  regs : Registers
  pc : Nat
  deriving DecidableEq

/-- `Cpu::new(rom)` of the root crate: registers seeded from the ROM size,
PC at `rom.start_addr()`. -/
def Root.Cpu.new (rom : Rom) : Root.Cpu :=
  { regs := Registers.new rom.size, pc := rom.start_addr }

/-- `Cpu::execute` of `src/src/cpu.rs`.  At the time execute runs, `s.pc`
has already been advanced past the instruction by `fetch`; `addr` is the
captured instruction address.  The `todo!()` arms of the source are the
`notImplemented` faults. -/
def Root.execute (s : Root.Cpu) (w : Nat) (addr : Nat) : Except Fault Root.Cpu :=
  match Instruction.kind w with
  | .Jal =>
      let offset := Instruction.imm_j w
      let target_addr := wrap32i (i32ofBits addr + offset)
      .ok { regs := (s.regs.set (Instruction.rd w) ((s.pc + 4) % 2 ^ 32)),
            pc := target_addr }
  | .Beq =>
      .ok (if Registers.get s.regs (Instruction.rs1 w) = Registers.get s.regs (Instruction.rs2 w)
           then { s with pc := (s.pc + wrap32i (Instruction.imm_b w)) % 2 ^ 32 } else s)
  | .Bne =>
      .ok (if Registers.get s.regs (Instruction.rs1 w) ≠ Registers.get s.regs (Instruction.rs2 w)
           then { s with pc := (s.pc + wrap32i (Instruction.imm_b w)) % 2 ^ 32 } else s)
  | .Blt =>
      .ok (if Registers.get s.regs (Instruction.rs1 w) < Registers.get s.regs (Instruction.rs2 w)
           then { s with pc := (s.pc + wrap32i (Instruction.imm_b w)) % 2 ^ 32 } else s)
  | .Bge =>
      .ok (if Registers.get s.regs (Instruction.rs1 w) ≥ Registers.get s.regs (Instruction.rs2 w)
           then { s with pc := (s.pc + wrap32i (Instruction.imm_b w)) % 2 ^ 32 } else s)
  | .Bltu =>
      .ok (if Registers.get s.regs (Instruction.rs1 w) < Registers.get s.regs (Instruction.rs2 w)
           then { s with pc := (s.pc + wrap32i (Instruction.imm_b w)) % 2 ^ 32 } else s)
  | .Bgeu =>
      .ok (if Registers.get s.regs (Instruction.rs1 w) ≥ Registers.get s.regs (Instruction.rs2 w)
           then { s with pc := (s.pc + wrap32i (Instruction.imm_b w)) % 2 ^ 32 } else s)
  | .Addi =>
      let value := wrap32i (i32ofBits (Registers.get s.regs (Instruction.rs1 w)) +
                            Instruction.imm_i w)
      .ok { s with regs := s.regs.set (Instruction.rd w) value }
  | .Unknown => .ok s
  | k => .error (.notImplemented k)

/-- One iteration of the `while` loop body of `Cpu::run` in
`src/src/cpu.rs`: hard-wire register 0 (`set_zero(0)`), capture the
instruction address (`s.pc`, which the zeroing does not touch), fetch
(which advances the PC by 4 and only reads the PC), then execute on the
zeroed register file. -/
def Root.stepCycle (rom : Rom) (s : Root.Cpu) : Except Fault Root.Cpu :=
  match Rom.fetch4 rom s.pc with
  | .error e => .error e
  | .ok w =>
      Root.execute { regs := Registers.set_zero s.regs 0, pc := (s.pc + 4) % 2 ^ 32 } w s.pc

/-- Outcome of `Cpu::run` of the root crate: finished normally, or ran
out of modelling fuel. -/
inductive Root.RunResult where
  | finished (s : Root.Cpu)
  | outOfFuel (s : Root.Cpu)
  deriving DecidableEq

/-- The `while self.pc < self.rom.end_addr()` loop of `Cpu::run` in
`src/src/cpu.rs`, indexed by fuel. -/
def Root.runLoop (rom : Rom) : Nat → Root.Cpu → Except Fault Root.RunResult
  | 0, s => .ok (.outOfFuel s)
  | n + 1, s =>
      if s.pc < rom.end_addr then
        match Root.stepCycle rom s with
        | .error e => .error e
        | .ok s2 => Root.runLoop rom n s2
      else .ok (.finished s)

/-- Iterating the loop body of `Cpu::run` (root crate) a fixed number of
times, to name the state reached at a cycle boundary. -/
def Root.iterateCycles (rom : Rom) : Nat → Root.Cpu → Except Fault Root.Cpu
  | 0, s => .ok s
  | k + 1, s =>
      if s.pc < rom.end_addr then
        match Root.stepCycle rom s with
        | .error e => .error e
        | .ok s2 => Root.iterateCycles rom k s2
      else .ok s

/-- Program counter of a (possibly failed) root-crate cycle result. -/
def Root.pcOf : Except Fault Root.Cpu → Option Nat
  | .ok s => some s.pc
  | .error _ => none

/-- Register `i` of a (possibly failed) root-crate cycle result. -/
def Root.regOf (r : Except Fault Root.Cpu) (i : Nat) : Option Nat :=
  match r with
  | .ok s => some (Registers.get s.regs i)
  | .error _ => none

/-- CPU state of `src/emu/src/cpu.rs`: register file, program counter and
the interior-mutable `running` flag.  The optional ECALL hook is passed
separately to the step functions (it is immutable for a whole run); its
only capability on the CPU is `abort`, so it is modelled as a predicate
returning whether it aborts. -/
structure Emu.Cpu where
  regs : Registers
  pc : Nat
  running : Bool
  deriving DecidableEq

/-- `Cpu::new(rom, verbose)` of the emu crate (the verbosity flag only
controls logging and is dropped). -/
def Emu.Cpu.new (rom : Rom) : Emu.Cpu :=
  { regs := Registers.new rom.size, pc := rom.start_addr, running := false }

/-- `Cpu::execute` of `src/emu/src/cpu.rs`.  `addr` is the captured
instruction address; in this crate the PC is not advanced before execute,
so `s.pc = addr` when called from the cycle loop.  The decoder functions
are the spec-modelled ones (the emu crate's `inst.rs` is not in the
snapshot).  `todo!()` arms are `notImplemented` faults. -/
def Emu.execute (hook : Option (Emu.Cpu → Bool)) (s : Emu.Cpu) (w : Nat) (addr : Nat) :
    Except Fault Emu.Cpu :=
  match kindSpec w with
  | .Lui =>
      let value := wrap32i (immU_spec w) &&& 0x7FFFF000
      .ok { s with regs := s.regs.set (Instruction.rd w) value }
  | .Auipc =>
      let offset := wrap32i (immU_spec w) &&& 0x7FFFF000
      let target_addr := wrap32i (i32ofBits addr + (offset : Int))
      .ok { s with regs := s.regs.set (Instruction.rd w) target_addr }
  | .Jal =>
      let byte_offset := immJ_spec w * 2
      let target_addr := wrap32i (i32ofBits addr + byte_offset)
      .ok { regs := s.regs.set (Instruction.rd w) ((s.pc + 4) % 2 ^ 32),
            pc := target_addr, running := s.running }
  | .Beq =>
      .ok (if Registers.get s.regs (Instruction.rs1 w) = Registers.get s.regs (Instruction.rs2 w)
           then { s with pc := (s.pc + wrap32i (immB_spec w)) % 2 ^ 32 } else s)
  | .Bne =>
      .ok (if Registers.get s.regs (Instruction.rs1 w) ≠ Registers.get s.regs (Instruction.rs2 w)
           then { s with pc := (s.pc + wrap32i (immB_spec w)) % 2 ^ 32 } else s)
  | .Blt =>
      .ok (if Registers.get s.regs (Instruction.rs1 w) < Registers.get s.regs (Instruction.rs2 w)
           then { s with pc := (s.pc + wrap32i (immB_spec w)) % 2 ^ 32 } else s)
  | .Bge =>
      .ok (if Registers.get s.regs (Instruction.rs1 w) ≥ Registers.get s.regs (Instruction.rs2 w)
           then { s with pc := (s.pc + wrap32i (immB_spec w)) % 2 ^ 32 } else s)
  | .Bltu =>
      .ok (if Registers.get s.regs (Instruction.rs1 w) < Registers.get s.regs (Instruction.rs2 w)
           then { s with pc := (s.pc + wrap32i (immB_spec w)) % 2 ^ 32 } else s)
  | .Bgeu =>
      .ok (if Registers.get s.regs (Instruction.rs1 w) ≥ Registers.get s.regs (Instruction.rs2 w)
           then { s with pc := (s.pc + wrap32i (immB_spec w)) % 2 ^ 32 } else s)
  | .Addi =>
      let value := wrap32i (i32ofBits (Registers.get s.regs (Instruction.rs1 w)) + immI_spec w)
      .ok { s with regs := s.regs.set (Instruction.rd w) value }
  | .Xori =>
      let value := Registers.get s.regs (Instruction.rs1 w) ^^^ wrap32i (immI_spec w)
      .ok { s with regs := s.regs.set (Instruction.rd w) value }
  | .Ori =>
      let value := Registers.get s.regs (Instruction.rs1 w) ||| wrap32i (immI_spec w)
      .ok { s with regs := s.regs.set (Instruction.rd w) value }
  | .Andi =>
      let value := Registers.get s.regs (Instruction.rs1 w) &&& wrap32i (immI_spec w)
      .ok { s with regs := s.regs.set (Instruction.rd w) value }
  | .Slli =>
      let shamt := wrap32i (immI_spec w) &&& 0b11111
      let value := (Registers.get s.regs (Instruction.rs1 w) <<< shamt) % 2 ^ 32
      .ok { s with regs := s.regs.set (Instruction.rd w) value }
  | .Fence => .ok s
  | .ECall =>
      .ok { s with running := match hook with
                              | none => s.running
                              | some f => if f s then false else s.running }
  | .EBreak => .ok s
  | .Unknown => .ok s
  | k => .error (.notImplemented k)

/-- Result of one iteration of the emu cycle loop body: continue with the
next state, or hit the `0xC0001073` break and leave the loop. -/
inductive Emu.StepOut where
  | next (s : Emu.Cpu)
  | halted (s : Emu.Cpu)
  deriving DecidableEq

/-- One iteration of the `while` loop body of `Cpu::run` in
`src/emu/src/cpu.rs`: hard-wire register 0 (`set_zero(0)`, which does not
touch the PC seen by the fetch), capture the instruction address, fetch
(PC unchanged), break on the magic word `0xC0001073`, otherwise decode,
execute on the zeroed register file, and advance the PC by 4. -/
def Emu.stepCycle (rom : Rom) (hook : Option (Emu.Cpu → Bool)) (s : Emu.Cpu) :
    Except Fault Emu.StepOut :=
  match Rom.fetch4 rom s.pc with
  | .error e => .error e
  | .ok w =>
      if w = 0xC0001073 then .ok (.halted { s with regs := Registers.set_zero s.regs 0 })
      else
        match Emu.execute hook { s with regs := Registers.set_zero s.regs 0 } w s.pc with
        | .error e => .error e
        | .ok s2 => .ok (.next { s2 with pc := (s2.pc + 4) % 2 ^ 32 })

/-- Outcome of `Cpu::run` of the emu crate. -/
inductive Emu.RunResult where
  | finished (s : Emu.Cpu)
  | outOfFuel (s : Emu.Cpu)
  deriving DecidableEq

/-- The `while self.pc < self.rom.end_addr() && self.running()` loop of
`Cpu::run` in `src/emu/src/cpu.rs`, indexed by fuel.  `run` itself sets
`running` to true before entering the loop (`Emu.run`). -/
def Emu.runLoop (rom : Rom) (hook : Option (Emu.Cpu → Bool)) :
    Nat → Emu.Cpu → Except Fault Emu.RunResult
  | 0, s => .ok (.outOfFuel s)
  | n + 1, s =>
      if s.pc < rom.end_addr ∧ s.running = true then
        match Emu.stepCycle rom hook s with
        | .error e => .error e
        | .ok (.halted s2) => .ok (.finished s2)
        | .ok (.next s2) => Emu.runLoop rom hook n s2
      else .ok (.finished s)

/-- `Cpu::run` of the emu crate: set `running` and enter the loop. -/
def Emu.run (rom : Rom) (hook : Option (Emu.Cpu → Bool)) (fuel : Nat) (s : Emu.Cpu) :
    Except Fault Emu.RunResult :=
  Emu.runLoop rom hook fuel { s with running := true }

/-- Program counter of a (possibly failed) emu cycle result. -/
def Emu.outPc : Except Fault Emu.StepOut → Option Nat
  | .ok (.next s) => some s.pc
  | .ok (.halted s) => some s.pc
  | .error _ => none

/-- Register `i` of a (possibly failed) emu cycle result. -/
def Emu.outReg (r : Except Fault Emu.StepOut) (i : Nat) : Option Nat :=
  match r with
  | .ok (.next s) => some (Registers.get s.regs i)
  | .ok (.halted s) => some (Registers.get s.regs i)
  | .error _ => none

/-- ROM holding the single word `0x00000863` = `BEQ x0, x0, +16` at
address 0. -/
def beqRom : Rom := { bytes := [0x63, 0x08, 0x00, 0x00], start_addr := 0, end_addr := 4 }

/-- ROM holding the single word `0x008000EF` = `JAL x1, +8` at address 0. -/
def jalRom : Rom := { bytes := [0xEF, 0x00, 0x80, 0x00], start_addr := 0, end_addr := 4 }

/-- ROM holding the single word `0x0062C463` = `BLT x5, x6, +8` at
address 0. -/
def bltRom : Rom := { bytes := [0x63, 0xC4, 0x62, 0x00], start_addr := 0, end_addr := 4 }

/-- ROM holding the single word `0x0062E463` = `BLTU x5, x6, +8` at
address 0. -/
def bltuRom : Rom := { bytes := [0x63, 0xE4, 0x62, 0x00], start_addr := 0, end_addr := 4 }

/-- ROM whose bounds promise six bytes `[0, 6)` and whose buffer holds
them: a NOP (`ADDI x0, x0, 0`) at address 0 followed by a truncated
second instruction, so the fetch at address 4 reads past `end_addr`. -/
def oobRom : Rom := { bytes := [0x13, 0x00, 0x00, 0x00, 0x13, 0x00], start_addr := 0, end_addr := 6 }

/-- The root-crate CPU state at the cycle boundary after executing the
NOP of `oobRom` (PC advanced to 4). -/
def oobS1 : Root.Cpu := { regs := (List.replicate 32 0).set 2 6, pc := 4 }

/-- ROM holding the magic halt word `0xC0001073` at address 0. -/
def magicRom : Rom := { bytes := [0x73, 0x10, 0x00, 0xC0], start_addr := 0, end_addr := 4 }

/-- An emu CPU about to fetch the magic halt word. -/
def magicS0 : Emu.Cpu := { regs := List.replicate 32 0, pc := 0, running := true }

/-- Root-crate CPU with `x5 = 0xFFFFFFFF` (-1 as a signed word) and
`x6 = 1`, about to execute at address 0. -/
def signedCmpRoot : Root.Cpu :=
  { regs := ((Registers.new 4).set 5 0xFFFFFFFF).set 6 1, pc := 0 }

/-- Emu CPU with `x5 = 0xFFFFFFFF` and `x6 = 1`, about to execute at
address 0. -/
def signedCmpEmu : Emu.Cpu :=
  { regs := ((Registers.new 4).set 5 0xFFFFFFFF).set 6 1, pc := 0, running := true }

deriving instance DecidableEq for Except

set_option maxHeartbeats 1000000 in
/-- Helper for claim C8: a classifier result is the `Unknown` fall-through
exactly when no arm of the source table matches the field tuple. -/
theorem kindOfFields_unknown_iff (op f3 f7 : Nat) :
    kindOfFields op f3 f7 = InstructionKind.Unknown ↔ ¬ tableMatches op f3 f7 := by
  constructor
  · intro hk ht
    unfold tableMatches at ht
    rcases ht with h|h|h|h|h|h|h|h|h|h|h|h|h|h|h|h|h|h|h|h|h|h|h|h|h|h|h|h|h|h|h|h|h|h|h|h|h <;>
      first
        | (obtain ⟨rfl, rfl, rfl⟩ := h; exact InstructionKind.noConfusion hk)
        | (obtain ⟨rfl, rfl⟩ := h; exact InstructionKind.noConfusion hk)
        | (subst h; exact InstructionKind.noConfusion hk)
  · intro ht
    have n1 := fun h => ht (show tableMatches op f3 f7 from Or.inl h)
    have n2 := fun h => ht (show tableMatches op f3 f7 from Or.inr (Or.inl h))
    have n3 := fun h => ht (show tableMatches op f3 f7 from Or.inr (Or.inr (Or.inl h)))
    have n4 := fun h => ht (show tableMatches op f3 f7 from Or.inr (Or.inr (Or.inr (Or.inl h))))
    have n5 := fun h => ht (show tableMatches op f3 f7 from Or.inr (Or.inr (Or.inr (Or.inr (Or.inl h)))))
    have n6 := fun h => ht (show tableMatches op f3 f7 from Or.inr (Or.inr (Or.inr (Or.inr (Or.inr (Or.inl h))))))
    have n7 := fun h => ht (show tableMatches op f3 f7 from Or.inr (Or.inr (Or.inr (Or.inr (Or.inr (Or.inr (Or.inl h)))))))
    have n8 := fun h => ht (show tableMatches op f3 f7 from Or.inr (Or.inr (Or.inr (Or.inr (Or.inr (Or.inr (Or.inr (Or.inl h))))))))
    have n9 := fun h => ht (show tableMatches op f3 f7 from Or.inr (Or.inr (Or.inr (Or.inr (Or.inr (Or.inr (Or.inr (Or.inr (Or.inl h)))))))))
    have n10 := fun h => ht (show tableMatches op f3 f7 from Or.inr (Or.inr (Or.inr (Or.inr (Or.inr (Or.inr (Or.inr (Or.inr (Or.inr (Or.inl h))))))))))
    have n11 := fun h => ht (show tableMatches op f3 f7 from Or.inr (Or.inr (Or.inr (Or.inr (Or.inr (Or.inr (Or.inr (Or.inr (Or.inr (Or.inr (Or.inl h)))))))))))
    have n12 := fun h => ht (show tableMatches op f3 f7 from Or.inr (Or.inr (Or.inr (Or.inr (Or.inr (Or.inr (Or.inr (Or.inr (Or.inr (Or.inr (Or.inr (Or.inl h))))))))))))
    have n13 := fun h => ht (show tableMatches op f3 f7 from Or.inr (Or.inr (Or.inr (Or.inr (Or.inr (Or.inr (Or.inr (Or.inr (Or.inr (Or.inr (Or.inr (Or.inr (Or.inl h)))))))))))))
    have n14 := fun h => ht (show tableMatches op f3 f7 from Or.inr (Or.inr (Or.inr (Or.inr (Or.inr (Or.inr (Or.inr (Or.inr (Or.inr (Or.inr (Or.inr (Or.inr (Or.inr (Or.inl h))))))))))))))
    have n15 := fun h => ht (show tableMatches op f3 f7 from Or.inr (Or.inr (Or.inr (Or.inr (Or.inr (Or.inr (Or.inr (Or.inr (Or.inr (Or.inr (Or.inr (Or.inr (Or.inr (Or.inr (Or.inl h)))))))))))))))
    have n16 := fun h => ht (show tableMatches op f3 f7 from Or.inr (Or.inr (Or.inr (Or.inr (Or.inr (Or.inr (Or.inr (Or.inr (Or.inr (Or.inr (Or.inr (Or.inr (Or.inr (Or.inr (Or.inr (Or.inl h))))))))))))))))
    have n17 := fun h => ht (show tableMatches op f3 f7 from Or.inr (Or.inr (Or.inr (Or.inr (Or.inr (Or.inr (Or.inr (Or.inr (Or.inr (Or.inr (Or.inr (Or.inr (Or.inr (Or.inr (Or.inr (Or.inr (Or.inl h)))))))))))))))))
    have n18 := fun h => ht (show tableMatches op f3 f7 from Or.inr (Or.inr (Or.inr (Or.inr (Or.inr (Or.inr (Or.inr (Or.inr (Or.inr (Or.inr (Or.inr (Or.inr (Or.inr (Or.inr (Or.inr (Or.inr (Or.inr (Or.inl h))))))))))))))))))
    have n19 := fun h => ht (show tableMatches op f3 f7 from Or.inr (Or.inr (Or.inr (Or.inr (Or.inr (Or.inr (Or.inr (Or.inr (Or.inr (Or.inr (Or.inr (Or.inr (Or.inr (Or.inr (Or.inr (Or.inr (Or.inr (Or.inr (Or.inl h)))))))))))))))))))
    have n20 := fun h => ht (show tableMatches op f3 f7 from Or.inr (Or.inr (Or.inr (Or.inr (Or.inr (Or.inr (Or.inr (Or.inr (Or.inr (Or.inr (Or.inr (Or.inr (Or.inr (Or.inr (Or.inr (Or.inr (Or.inr (Or.inr (Or.inr (Or.inl h))))))))))))))))))))
    have n21 := fun h => ht (show tableMatches op f3 f7 from Or.inr (Or.inr (Or.inr (Or.inr (Or.inr (Or.inr (Or.inr (Or.inr (Or.inr (Or.inr (Or.inr (Or.inr (Or.inr (Or.inr (Or.inr (Or.inr (Or.inr (Or.inr (Or.inr (Or.inr (Or.inl h)))))))))))))))))))))
    have n22 := fun h => ht (show tableMatches op f3 f7 from Or.inr (Or.inr (Or.inr (Or.inr (Or.inr (Or.inr (Or.inr (Or.inr (Or.inr (Or.inr (Or.inr (Or.inr (Or.inr (Or.inr (Or.inr (Or.inr (Or.inr (Or.inr (Or.inr (Or.inr (Or.inr (Or.inl h))))))))))))))))))))))
    have n23 := fun h => ht (show tableMatches op f3 f7 from Or.inr (Or.inr (Or.inr (Or.inr (Or.inr (Or.inr (Or.inr (Or.inr (Or.inr (Or.inr (Or.inr (Or.inr (Or.inr (Or.inr (Or.inr (Or.inr (Or.inr (Or.inr (Or.inr (Or.inr (Or.inr (Or.inr (Or.inl h)))))))))))))))))))))))
    have n24 := fun h => ht (show tableMatches op f3 f7 from Or.inr (Or.inr (Or.inr (Or.inr (Or.inr (Or.inr (Or.inr (Or.inr (Or.inr (Or.inr (Or.inr (Or.inr (Or.inr (Or.inr (Or.inr (Or.inr (Or.inr (Or.inr (Or.inr (Or.inr (Or.inr (Or.inr (Or.inr (Or.inl h))))))))))))))))))))))))
    have n25 := fun h => ht (show tableMatches op f3 f7 from Or.inr (Or.inr (Or.inr (Or.inr (Or.inr (Or.inr (Or.inr (Or.inr (Or.inr (Or.inr (Or.inr (Or.inr (Or.inr (Or.inr (Or.inr (Or.inr (Or.inr (Or.inr (Or.inr (Or.inr (Or.inr (Or.inr (Or.inr (Or.inr (Or.inl h)))))))))))))))))))))))))
    have n26 := fun h => ht (show tableMatches op f3 f7 from Or.inr (Or.inr (Or.inr (Or.inr (Or.inr (Or.inr (Or.inr (Or.inr (Or.inr (Or.inr (Or.inr (Or.inr (Or.inr (Or.inr (Or.inr (Or.inr (Or.inr (Or.inr (Or.inr (Or.inr (Or.inr (Or.inr (Or.inr (Or.inr (Or.inr (Or.inl h))))))))))))))))))))))))))
    have n27 := fun h => ht (show tableMatches op f3 f7 from Or.inr (Or.inr (Or.inr (Or.inr (Or.inr (Or.inr (Or.inr (Or.inr (Or.inr (Or.inr (Or.inr (Or.inr (Or.inr (Or.inr (Or.inr (Or.inr (Or.inr (Or.inr (Or.inr (Or.inr (Or.inr (Or.inr (Or.inr (Or.inr (Or.inr (Or.inr (Or.inl h)))))))))))))))))))))))))))
    have n28 := fun h => ht (show tableMatches op f3 f7 from Or.inr (Or.inr (Or.inr (Or.inr (Or.inr (Or.inr (Or.inr (Or.inr (Or.inr (Or.inr (Or.inr (Or.inr (Or.inr (Or.inr (Or.inr (Or.inr (Or.inr (Or.inr (Or.inr (Or.inr (Or.inr (Or.inr (Or.inr (Or.inr (Or.inr (Or.inr (Or.inr (Or.inl h))))))))))))))))))))))))))))
    have n29 := fun h => ht (show tableMatches op f3 f7 from Or.inr (Or.inr (Or.inr (Or.inr (Or.inr (Or.inr (Or.inr (Or.inr (Or.inr (Or.inr (Or.inr (Or.inr (Or.inr (Or.inr (Or.inr (Or.inr (Or.inr (Or.inr (Or.inr (Or.inr (Or.inr (Or.inr (Or.inr (Or.inr (Or.inr (Or.inr (Or.inr (Or.inr (Or.inl h)))))))))))))))))))))))))))))
    have n30 := fun h => ht (show tableMatches op f3 f7 from Or.inr (Or.inr (Or.inr (Or.inr (Or.inr (Or.inr (Or.inr (Or.inr (Or.inr (Or.inr (Or.inr (Or.inr (Or.inr (Or.inr (Or.inr (Or.inr (Or.inr (Or.inr (Or.inr (Or.inr (Or.inr (Or.inr (Or.inr (Or.inr (Or.inr (Or.inr (Or.inr (Or.inr (Or.inr (Or.inl h))))))))))))))))))))))))))))))
    have n31 := fun h => ht (show tableMatches op f3 f7 from Or.inr (Or.inr (Or.inr (Or.inr (Or.inr (Or.inr (Or.inr (Or.inr (Or.inr (Or.inr (Or.inr (Or.inr (Or.inr (Or.inr (Or.inr (Or.inr (Or.inr (Or.inr (Or.inr (Or.inr (Or.inr (Or.inr (Or.inr (Or.inr (Or.inr (Or.inr (Or.inr (Or.inr (Or.inr (Or.inr (Or.inl h)))))))))))))))))))))))))))))))
    have n32 := fun h => ht (show tableMatches op f3 f7 from Or.inr (Or.inr (Or.inr (Or.inr (Or.inr (Or.inr (Or.inr (Or.inr (Or.inr (Or.inr (Or.inr (Or.inr (Or.inr (Or.inr (Or.inr (Or.inr (Or.inr (Or.inr (Or.inr (Or.inr (Or.inr (Or.inr (Or.inr (Or.inr (Or.inr (Or.inr (Or.inr (Or.inr (Or.inr (Or.inr (Or.inr (Or.inl h))))))))))))))))))))))))))))))))
    have n33 := fun h => ht (show tableMatches op f3 f7 from Or.inr (Or.inr (Or.inr (Or.inr (Or.inr (Or.inr (Or.inr (Or.inr (Or.inr (Or.inr (Or.inr (Or.inr (Or.inr (Or.inr (Or.inr (Or.inr (Or.inr (Or.inr (Or.inr (Or.inr (Or.inr (Or.inr (Or.inr (Or.inr (Or.inr (Or.inr (Or.inr (Or.inr (Or.inr (Or.inr (Or.inr (Or.inr (Or.inl h)))))))))))))))))))))))))))))))))
    have n34 := fun h => ht (show tableMatches op f3 f7 from Or.inr (Or.inr (Or.inr (Or.inr (Or.inr (Or.inr (Or.inr (Or.inr (Or.inr (Or.inr (Or.inr (Or.inr (Or.inr (Or.inr (Or.inr (Or.inr (Or.inr (Or.inr (Or.inr (Or.inr (Or.inr (Or.inr (Or.inr (Or.inr (Or.inr (Or.inr (Or.inr (Or.inr (Or.inr (Or.inr (Or.inr (Or.inr (Or.inr (Or.inl h))))))))))))))))))))))))))))))))))
    have n35 := fun h => ht (show tableMatches op f3 f7 from Or.inr (Or.inr (Or.inr (Or.inr (Or.inr (Or.inr (Or.inr (Or.inr (Or.inr (Or.inr (Or.inr (Or.inr (Or.inr (Or.inr (Or.inr (Or.inr (Or.inr (Or.inr (Or.inr (Or.inr (Or.inr (Or.inr (Or.inr (Or.inr (Or.inr (Or.inr (Or.inr (Or.inr (Or.inr (Or.inr (Or.inr (Or.inr (Or.inr (Or.inr (Or.inl h)))))))))))))))))))))))))))))))))))
    have n36 := fun h => ht (show tableMatches op f3 f7 from Or.inr (Or.inr (Or.inr (Or.inr (Or.inr (Or.inr (Or.inr (Or.inr (Or.inr (Or.inr (Or.inr (Or.inr (Or.inr (Or.inr (Or.inr (Or.inr (Or.inr (Or.inr (Or.inr (Or.inr (Or.inr (Or.inr (Or.inr (Or.inr (Or.inr (Or.inr (Or.inr (Or.inr (Or.inr (Or.inr (Or.inr (Or.inr (Or.inr (Or.inr (Or.inr (Or.inl h))))))))))))))))))))))))))))))))))))
    have n37 := fun h => ht (show tableMatches op f3 f7 from Or.inr (Or.inr (Or.inr (Or.inr (Or.inr (Or.inr (Or.inr (Or.inr (Or.inr (Or.inr (Or.inr (Or.inr (Or.inr (Or.inr (Or.inr (Or.inr (Or.inr (Or.inr (Or.inr (Or.inr (Or.inr (Or.inr (Or.inr (Or.inr (Or.inr (Or.inr (Or.inr (Or.inr (Or.inr (Or.inr (Or.inr (Or.inr (Or.inr (Or.inr (Or.inr (Or.inr h))))))))))))))))))))))))))))))))))))
    unfold kindOfFields
    rw [if_neg n1, if_neg n2, if_neg n3, if_neg n4, if_neg n5, if_neg n6, if_neg n7,
        if_neg n8, if_neg n9, if_neg n10, if_neg n11, if_neg n12, if_neg n13, if_neg n14,
        if_neg n15, if_neg n16, if_neg n17, if_neg n18, if_neg n19, if_neg n20, if_neg n21,
        if_neg n22, if_neg n23, if_neg n24, if_neg n25, if_neg n26, if_neg n27, if_neg n28,
        if_neg n29, if_neg n30, if_neg n31, if_neg n32, if_neg n33, if_neg n34, if_neg n35,
        if_neg n36, if_neg n37]

/-- Helper for claim C9: a failing `Rom::read` fault names the accessed
address, and that address lies outside the buffer. -/
theorem romRead_error_oob (rom : Rom) (a : Nat) (f : Fault)
    (h : Rom.read rom a = .error f) :
    f = Fault.oobRead a ∧
      ¬(rom.start_addr ≤ a ∧ a - rom.start_addr < rom.bytes.length) := by
  unfold Rom.read at h
  split at h
  · exact absurd h (by simp)
  · next hc =>
      injection h with h2
      exact ⟨h2.symm, hc⟩

/-- Helper for claim C9: a failing 4-byte fetch fails because one of its
four byte reads is out of bounds, and the fault names that address. -/
theorem fetch4_error_oob (rom : Rom) (a : Nat) (f : Fault)
    (h : Rom.fetch4 rom a = .error f) :
    ∃ x, f = Fault.oobRead x ∧
      ¬(rom.start_addr ≤ x ∧ x - rom.start_addr < rom.bytes.length) := by
  unfold Rom.fetch4 at h
  cases h0 : rom.read a with
  | error e =>
      rw [h0] at h
      simp at h
      subst h
      obtain ⟨h3, h4⟩ := romRead_error_oob rom a e h0
      exact ⟨a, h3, h4⟩
  | ok b0 =>
  cases h1 : rom.read (a + 1) with
  | error e =>
      rw [h0, h1] at h
      simp at h
      subst h
      obtain ⟨h3, h4⟩ := romRead_error_oob rom (a + 1) e h1
      exact ⟨a + 1, h3, h4⟩
  | ok b1 =>
  cases h2 : rom.read (a + 2) with
  | error e =>
      rw [h0, h1, h2] at h
      simp at h
      subst h
      obtain ⟨h3, h4⟩ := romRead_error_oob rom (a + 2) e h2
      exact ⟨a + 2, h3, h4⟩
  | ok b2 =>
  cases h3 : rom.read (a + 3) with
  | error e =>
      rw [h0, h1, h2, h3] at h
      simp at h
      subst h
      obtain ⟨h4, h5⟩ := romRead_error_oob rom (a + 3) e h3
      exact ⟨a + 3, h4, h5⟩
  | ok b3 =>
      rw [h0, h1, h2, h3] at h
      simp at h

/-- Helper for claim C9: the only faults `Cpu::execute` of the root crate
raises itself are the `todo!()` stubs. -/
theorem rootExecute_error_notImpl (s : Root.Cpu) (w addr : Nat) (e : Fault)
    (h : Root.execute s w addr = .error e) : ∃ k, e = Fault.notImplemented k := by
  unfold Root.execute at h
  split at h <;>
    first
      | (injection h with h2; exact ⟨_, h2.symm⟩)
      | injection h

/-- Helper for claim C9: when a cycle of the root crate fails with an
out-of-bounds read fault, the faulting address really is outside the
memory buffer. -/
theorem rootStep_error_oob (rom : Rom) (s : Root.Cpu) (a : Nat)
    (h : Root.stepCycle rom s = .error (.oobRead a)) :
    ¬(rom.start_addr ≤ a ∧ a - rom.start_addr < rom.bytes.length) := by
  unfold Root.stepCycle at h
  cases h0 : Rom.fetch4 rom s.pc with
  | error e =>
      rw [h0] at h
      simp at h
      obtain ⟨x, hx, hoob⟩ := fetch4_error_oob rom s.pc e h0
      rw [h] at hx
      injection hx with hxa
      rw [hxa]
      exact hoob
  | ok w =>
      rw [h0] at h
      simp at h
      obtain ⟨k, hk⟩ := rootExecute_error_notImpl _ _ _ _ h
      exact Fault.noConfusion hk

/-- Helper for claim C9: a fault raised by the cycle reached after `k`
iterations of the root crate's run loop propagates out of the whole loop
unchanged (the `?` operator in `run` / `fetch`). -/
theorem runLoop_error_of_reach (rom : Rom) :
    ∀ (k n : Nat) (s s1 : Root.Cpu) (e : Fault), k < n →
      Root.iterateCycles rom k s = .ok s1 → s1.pc < rom.end_addr →
      Root.stepCycle rom s1 = .error e → Root.runLoop rom n s = .error e := by
  intro k
  induction k with
  | zero =>
      intro n s s1 e hk hit hpc hstep
      simp only [Root.iterateCycles] at hit
      injection hit with h1
      subst h1
      cases n with
      | zero => omega
      | succ m =>
          simp only [Root.runLoop]
          rw [if_pos hpc, hstep]
  | succ k ih =>
      intro n s s1 e hk hit hpc hstep
      simp only [Root.iterateCycles] at hit
      by_cases hg : s.pc < rom.end_addr
      · rw [if_pos hg] at hit
        cases hs : Root.stepCycle rom s with
        | error e2 =>
            rw [hs] at hit
            simp at hit
        | ok s2 =>
            rw [hs] at hit
            simp at hit
            cases n with
            | zero => omega
            | succ m =>
                simp only [Root.runLoop]
                rw [if_pos hg, hs]
                exact ih m s2 s1 e (by omega) hit hpc hstep
      · rw [if_neg hg] at hit
        injection hit with h1
        subst h1
        exact absurd hpc hg

/-- Claim C1: the spec says words with the R-type opcode `0b0110011`
classify to the ten R-type ALU kinds by (funct7, funct3), and that the
fixed encodings of FENCE (`0x0000000F`), ECALL (`0x00000073`) and EBREAK
(`0x00100073`) classify to their kinds.  In `src/src/inst.rs` the R-type
match arms list the opcode in the funct7 position of the tuple and no arm
covers FENCE/ECALL/EBREAK, so all of these words classify as `Unknown`,
while the spec-modelled classifier returns the claimed kinds. -/
theorem classifier_drops_rtype_and_system_encodings :
    Instruction.kind 0x003100B3 = InstructionKind.Unknown ∧
    Instruction.kind 0x40208133 = InstructionKind.Unknown ∧
    Instruction.kind 0x00000073 = InstructionKind.Unknown ∧
    Instruction.kind 0x00100073 = InstructionKind.Unknown ∧
    Instruction.kind 0x0000000F = InstructionKind.Unknown ∧
    kindSpec 0x003100B3 = InstructionKind.Add ∧
    kindSpec 0x40208133 = InstructionKind.Sub ∧
    kindSpec 0x00000073 = InstructionKind.ECall ∧
    kindSpec 0x00100073 = InstructionKind.EBreak ∧
    kindSpec 0x0000000F = InstructionKind.Fence := by decide

/-- Claim C2: the spec says a taken `BEQ x0, x0, +0x10` at address `A`
makes the next fetched PC equal `A + 0x10`.  In both CPUs the next
fetched PC is `A + 0x10 + 4 = 20` for `A = 0`: the root crate adds the
branch offset to the already-advanced PC, and the emu crate adds the
offset to the instruction address but then unconditionally advances the
PC by 4 after execute, re-clobbering the target. -/
theorem branch_taken_lands_past_target :
    Root.pcOf (Root.stepCycle beqRom (Root.Cpu.new beqRom)) = some 20 ∧
    Emu.outPc (Emu.stepCycle beqRom none (Emu.Cpu.new beqRom)) = some 20 := by decide

/-- Claim C3: the spec says `JAL x1, +8` at address `A` sets
`x1 = A + 4` and the next fetched PC to `A + 8`.  The root crate writes
`x1 = A + 8` (the PC was already advanced when the link value
`self.pc + 4` is computed), and the emu crate doubles the already-shifted
J-immediate and advances the PC by 4 after the jump, so its next fetched
PC is `A + 2*8 + 4 = 20` (with `A = 0`), though its link value `x1 = 4`
is correct. -/
theorem jal_link_and_target_mismatch :
    Root.pcOf (Root.stepCycle jalRom (Root.Cpu.new jalRom)) = some 8 ∧
    Root.regOf (Root.stepCycle jalRom (Root.Cpu.new jalRom)) 1 = some 8 ∧
    Emu.outPc (Emu.stepCycle jalRom none (Emu.Cpu.new jalRom)) = some 20 ∧
    Emu.outReg (Emu.stepCycle jalRom none (Emu.Cpu.new jalRom)) 1 = some 4 := by decide

/-- Claim C4: the spec says the B-type immediate is sign-extended at
width 13, with bit 12 (from instruction bit 31) as the sign bit.
`Instruction::imm_b` sign-extends at width 12, so bit 12 is dropped
(`imm_b 0x80000000 = 0` instead of `-4096`) and bit 11 (from instruction
bit 7) acts as the sign instead (`imm_b 0x00000080 = -2048` instead of
`+2048`). -/
theorem imm_b_drops_bit_twelve :
    Instruction.imm_b 0x80000000 = 0 ∧
    immB_spec 0x80000000 = -4096 ∧
    Instruction.imm_b 0x00000080 = -2048 ∧
    immB_spec 0x00000080 = 2048 := by decide

/-- Claim C5: the spec says the S-type immediate is
`bits[31:25]<<5 | bits[11:7]` sign-extended at width 12.
`Instruction::imm_s` instead assembles bit 31 into bit 12 and bits 30:25
into bits 10:5 and ignores bits 11:7 entirely: for `w = 0x00000080`
(bits[11:7] = 1) it yields 0 instead of 1, and for `w = 0xFE000000`
(bits[31:25] = 0x7F) it yields 2016 instead of -32. -/
theorem imm_s_ignores_low_field :
    Instruction.imm_s 0x00000080 = 0 ∧
    immS_spec 0x00000080 = 1 ∧
    Instruction.imm_s 0xFE000000 = 2016 ∧
    immS_spec 0xFE000000 = -32 := by decide

/-- Claim C6: the spec says BLT/BGE compare signed and BLTU/BGEU
unsigned, so BLT and BLTU differ on a sign-differing register pair.  Both
CPUs compare the raw unsigned register values for all four: with
`x5 = 0xFFFFFFFF` (signed -1) and `x6 = 1`, `BLT x5, x6, +8` falls
through to PC 4 (signed comparison would take the branch), and BLTU
behaves identically to BLT. -/
theorem branch_comparisons_all_unsigned :
    Root.pcOf (Root.stepCycle bltRom signedCmpRoot) = some 4 ∧
    Root.pcOf (Root.stepCycle bltuRom signedCmpRoot) = some 4 ∧
    Emu.outPc (Emu.stepCycle bltRom none signedCmpEmu) = some 4 ∧
    Emu.outPc (Emu.stepCycle bltuRom none signedCmpEmu) = some 4 := by decide

/-- Claim C7: at every cycle boundary the `zero` register reads 0: the
loop body of `run` re-clears register 0 before fetching, so for every
state (reachable or not, and in particular one left by an instruction
that wrote `rd = 0`) the cycle behaves exactly as if register 0 held 0,
in both the emu and the root crate. -/
theorem zero_register_cleared_at_cycle_boundary :
    ∀ (rom : Rom) (hook : Option (Emu.Cpu → Bool)) (s : Emu.Cpu) (t : Root.Cpu),
      Registers.get (Registers.set_zero s.regs 0) 0 = 0 ∧
      Emu.stepCycle rom hook s =
        Emu.stepCycle rom hook { s with regs := Registers.set_zero s.regs 0 } ∧
      Root.stepCycle rom t =
        Root.stepCycle rom { t with regs := Registers.set_zero t.regs 0 } := by
  intro rom hook s t
  refine ⟨?_, ?_, ?_⟩
  · unfold Registers.get Registers.set_zero
    cases s.regs with
    | nil => rfl
    | cons a l => rfl
  · unfold Emu.stepCycle
    simp [Registers.set_zero, List.set_set]
  · unfold Root.stepCycle
    simp [Registers.set_zero, List.set_set]

/-- Claim C8: `Instruction::kind` is a total pure function of the
`(opcode, funct3, funct7)` fields — words with equal fields classify
identically — and it returns `Unknown` exactly for the tuples matched by
no arm of its table. -/
theorem classifier_total_unknown_fallthrough :
    (∀ w1 w2, Instruction.opcode w1 = Instruction.opcode w2 →
        Instruction.funct3 w1 = Instruction.funct3 w2 →
        Instruction.funct7 w1 = Instruction.funct7 w2 →
        Instruction.kind w1 = Instruction.kind w2) ∧
    (∀ w, Instruction.kind w = InstructionKind.Unknown ↔
        ¬ tableMatches (Instruction.opcode w) (Instruction.funct3 w) (Instruction.funct7 w)) := by
  constructor
  · intro w1 w2 h1 h2 h3
    unfold Instruction.kind
    rw [h1, h2, h3]
  · intro w
    exact kindOfFields_unknown_iff (Instruction.opcode w) (Instruction.funct3 w)
      (Instruction.funct7 w)

/-- Witness for claim C8 at the concrete word 0 (tuple (0,0,0), matched
by no arm, hence classified `Unknown`). -/
theorem classifier_total_unknown_fallthrough_witness :
    Instruction.kind 0 = Instruction.kind 0 ∧
    ¬ tableMatches (Instruction.opcode 0) (Instruction.funct3 0) (Instruction.funct7 0) :=
  ⟨classifier_total_unknown_fallthrough.1 0 0 rfl rfl rfl,
   (classifier_total_unknown_fallthrough.2 0).mp (by decide)⟩

/-- Claim C9: if the root crate's run loop reaches (after `k` cycles) a
state whose next cycle fails with an out-of-bounds read — as the 4-byte
fetch does when it crosses `end_addr` of a buffer covering
`[start_addr, end_addr)` — then `run` surfaces that fault, naming the
faulting address, which indeed lies outside `[start_addr, end_addr)`;
execution does not continue past it and no wrapped or corrupted value is
returned. -/
theorem run_surfaces_oob_fault (rom : Rom) (n k : Nat) (s s1 : Root.Cpu) (a : Nat)
    (hlen : rom.bytes.length = rom.end_addr - rom.start_addr)
    (hse : rom.start_addr ≤ rom.end_addr)
    (hk : k < n)
    (hreach : Root.iterateCycles rom k s = .ok s1)
    (hpc : s1.pc < rom.end_addr)
    (hoob : Root.stepCycle rom s1 = .error (.oobRead a)) :
    Root.runLoop rom n s = .error (.oobRead a) ∧
      ¬(rom.start_addr ≤ a ∧ a < rom.end_addr) := by
  refine ⟨runLoop_error_of_reach rom k n s s1 _ hk hreach hpc hoob, ?_⟩
  have h2 := rootStep_error_oob rom s1 a hoob
  intro hcon
  exact h2 ⟨hcon.1, by omega⟩

/-- Witness for claim C9: on `oobRom` (bounds `[0, 6)`), the fetch of the
second cycle reads address 6 and `run` surfaces the fault. -/
theorem run_surfaces_oob_fault_witness :
    Root.runLoop oobRom 3 (Root.Cpu.new oobRom) = .error (.oobRead 6) ∧
      ¬(oobRom.start_addr ≤ 6 ∧ 6 < oobRom.end_addr) :=
  run_surfaces_oob_fault oobRom 3 1 (Root.Cpu.new oobRom) oobS1 6 (by decide) (by decide)
    (by decide) (by decide) (by decide) (by decide)

/-- Claim C10: whenever the emu CPU is running and the word fetched at
the current PC is `0xC0001073`, the run loop breaks immediately and `run`
returns successfully with the state as it was at the top of the cycle
(only register 0 re-cleared): the word is never decoded or executed,
whatever the registers, PC, hook and remaining fuel. -/
theorem magic_word_halts (rom : Rom) (hook : Option (Emu.Cpu → Bool)) (n : Nat) (s : Emu.Cpu)
    (hrun : s.running = true) (hpc : s.pc < rom.end_addr)
    (hfetch : Rom.fetch4 rom s.pc = .ok 0xC0001073) :
    Emu.runLoop rom hook (n + 1) s =
      .ok (.finished { s with regs := Registers.set_zero s.regs 0 }) := by
  simp only [Emu.runLoop]
  rw [if_pos ⟨hpc, hrun⟩]
  unfold Emu.stepCycle
  rw [hfetch]
  simp

/-- Witness for claim C10: a concrete ROM holding `0xC0001073` at the
current PC makes `run` return successfully after one probe. -/
theorem magic_word_halts_witness :
    Emu.runLoop magicRom none 1 magicS0 =
      .ok (.finished { magicS0 with regs := Registers.set_zero magicS0.regs 0 }) :=
  magic_word_halts magicRom none 0 magicS0 rfl (by decide) (by decide)
